/-
Verification of the EditorContextMCP Sublime Text plugin
(src/EditorContextMCP.py): a shallow embedding of the snapshot builder,
the JSON-RPC dispatcher, the HTTP POST handler and the server lifecycle,
together with theorems settling the specification's claims.
-/
import Mathlib

/- ================================================================
   Editor host model (the sublime API surface the plugin queries)
   ================================================================ -/

/-- A sublime.Region: a pair of text-point offsets.  `region.begin()` is
`min a b`, `region.end()` is `max a b`, and `region.empty()` holds iff
`a = b`. -/
structure Region where
  a : Nat
  b : Nat
deriving DecidableEq

/-- A sublime view.  `file_name` models `view.file_name()` (None for an
unsaved buffer), `sel` models the selection-region list `view.sel()`, and
`rowcol` models `view.rowcol(point)`, returning a 0-indexed
(row, column) pair. -/
structure View where
  file_name : Option String
  sel : List Region
  rowcol : Nat → Nat × Nat

/-- A sublime window: its project folders (`window.folders()`), its active
view (`window.active_view()`, possibly None) and its view list
(`window.views()` in the host's native view order). -/
structure Window where
  folders : List String
  active_view : Option View
  views : List View

/-- The live host state: `sublime.windows()` in the host's native
enumeration order (back-to-front; the code reverses it). -/
structure SublimeState where
  windows : List Window

/- ================================================================
   Snapshot data model
   ================================================================ -/

/-- The `selection` value of a file entry: either a zero-width cursor
`{cursor: {line, column}}` or a span `{start: .., end: ..}`.  Lines are
1-based, columns 0-based, exactly as built at lines 56-65 of the source. -/
inductive SelectionInfo where
  | cursor (line column : Nat)
  | range (startLine startColumn endLine endColumn : Nat)
deriving DecidableEq

/-- One open file in the snapshot (the `file_obj` dict of lines 68-71). -/
structure FileEntry where
  path : String
  selection : Option SelectionInfo
deriving DecidableEq

/-- The snapshot dict returned by `get_state_snapshot` (lines 79-84).
`lastUpdated` is the `datetime.now().isoformat()` string; snapshot
construction is parametrised by it. -/
structure Snapshot where
  activeFiles : List FileEntry
  otherFiles : List FileEntry
  projectFolders : List String
  lastUpdated : String

/- ================================================================
   Snapshot builder (EditorContextState.get_state_snapshot, lines 18-84)
   ================================================================ -/

/-- Selection extraction for one view (lines 44-65).  If the view has no
selection regions the info is None; otherwise only the first region is
consulted: a non-empty region yields a start/end span from
`rowcol(begin)` / `rowcol(end)`, an empty one a cursor from
`rowcol(begin)`. -/
def selectionInfo (v : View) : Option SelectionInfo :=
  match v.sel with
  | [] => none
  | region :: _ =>
    if region.a ≠ region.b then
      let se := v.rowcol (min region.a region.b)
      let ee := v.rowcol (max region.a region.b)
      some (SelectionInfo.range (se.1 + 1) se.2 (ee.1 + 1) ee.2)
    else
      let ce := v.rowcol (min region.a region.b)
      some (SelectionInfo.cursor (ce.1 + 1) ce.2)

/-- The `file_obj` built for a view whose (truthy) file name is `fn`. -/
def mkFileEntry (fn : String) (v : View) : FileEntry :=
  { path := fn, selection := selectionInfo v }

/-- Accumulator of the window/view loops of `get_state_snapshot`:
`active_files`, `other_files`, `project_folders` are the growing lists;
`seen_files` models the `seen_files` set (only membership is ever used,
so a list of the added names is a faithful set model). -/
structure SnapAcc where
  active_files : List FileEntry
  other_files : List FileEntry
  project_folders : List String
  seen_files : List String

/-- The folder-merge loop (lines 28-31): append each folder not already
present. -/
def addFolders (pf : List String) (fs : List String) : List String :=
  fs.foldl (fun acc f => if f ∈ acc then acc else acc ++ [f]) pf

/-- The body of the view loop (lines 38-77).  A view contributes an entry
only when its file name is truthy (not None, not the empty string) and
not yet in `seen_files`; the entry goes to `active_files` when the name
equals the window's active path, else to `other_files`. -/
def processView (activePath : Option String) (acc : SnapAcc) (v : View) : SnapAcc :=
  match v.file_name with
  | none => acc
  | some fn =>
    if fn = "" then acc
    else if fn ∈ acc.seen_files then acc
    else
      let acc1 : SnapAcc := { acc with seen_files := fn :: acc.seen_files }
      if some fn = activePath then
        { acc1 with active_files := acc1.active_files ++ [mkFileEntry fn v] }
      else
        { acc1 with other_files := acc1.other_files ++ [mkFileEntry fn v] }

/-- The body of the window loop (lines 26-77): merge the window's folders,
compute the window's active path
(`active_view.file_name() if active_view else None`), then fold the view
loop over the window's views. -/
def processWindow (acc : SnapAcc) (w : Window) : SnapAcc :=
  let acc1 : SnapAcc := { acc with project_folders := addFolders acc.project_folders w.folders }
  let activePath := w.active_view.bind View.file_name
  w.views.foldl (processView activePath) acc1

/-- `EditorContextState.get_state_snapshot` (lines 18-84): fold the window
loop over `reversed(sublime.windows())` starting from empty lists, then
assemble the snapshot dict.  `now` is the `datetime.now().isoformat()`
string. -/
def get_state_snapshot (st : SublimeState) (now : String) : Snapshot :=
  let acc := (st.windows.reverse).foldl processWindow ⟨[], [], [], []⟩
  { activeFiles := acc.active_files
    otherFiles := acc.other_files
    projectFolders := acc.project_folders
    lastUpdated := now }

/- ================================================================
   JSON values (the Python objects produced by json.loads and consumed
   by json.dumps)
   ================================================================ -/

/-- A JSON value / the corresponding Python object.  Numbers are modelled
as integers (every number appearing in the program is one). -/
inductive Json where
  | null
  | bool (b : Bool)
  | num (n : Int)
  | str (s : String)
  | arr (xs : List Json)
  | obj (kvs : List (String × Json))

/-- Python `dict.get(k)`: the value at the first matching key, if any. -/
def jget (kvs : List (String × Json)) (k : String) : Option Json :=
  match kvs with
  | [] => none
  | kv :: rest => if kv.1 = k then some kv.2 else jget rest k

/-- Python `isinstance(x, dict)` for a loaded JSON value. -/
def isDict : Json → Bool
  | Json.obj _ => true
  | _ => false

/-- Python type name of a loaded JSON value, as it appears in
AttributeError messages. -/
def pyTypeName : Json → String
  | Json.null => "NoneType"
  | Json.bool _ => "bool"
  | Json.num _ => "int"
  | Json.str _ => "str"
  | Json.arr _ => "list"
  | Json.obj _ => "dict"

mutual
/-- Python `repr` of a loaded JSON value (None/True/False, ints, quoted
strings, lists, dicts). -/
def pyRepr : Json → String
  | Json.null => "None"
  | Json.bool true => "True"
  | Json.bool false => "False"
  | Json.num n => toString n
  | Json.str s => "\x27" ++ s ++ "\x27"
  | Json.arr xs => "[" ++ pyReprList xs ++ "]"
  | Json.obj kvs => "\x7b" ++ pyReprPairs kvs ++ "\x7d"

/-- Comma-separated reprs of list elements. -/
def pyReprList : List Json → String
  | [] => ""
  | [x] => pyRepr x
  | x :: y :: ys => pyRepr x ++ ", " ++ pyReprList (y :: ys)

/-- Comma-separated `key: value` reprs of dict items. -/
def pyReprPairs : List (String × Json) → String
  | [] => ""
  | [kv] => "\x27" ++ kv.1 ++ "\x27: " ++ pyRepr kv.2
  | kv :: kv2 :: kvs => "\x27" ++ kv.1 ++ "\x27: " ++ pyRepr kv.2 ++ ", " ++ pyReprPairs (kv2 :: kvs)
end

/-- Python `str` of a loaded JSON value: a string prints unquoted, every
other value prints as its repr.  This is what `"...{}".format(x)`
interpolates. -/
def pyStr : Json → String
  | Json.str s => s
  | j => pyRepr j

/-- Python `str` of an optional value, where `none` stands for Python's
None (e.g. the result of `dict.get` on a missing key). -/
def pyStrOpt : Option Json → String
  | none => "None"
  | some j => pyStr j

/- ================================================================
   json.dumps with indent=2 (used at line 207)
   ================================================================ -/

/-- Hex digit for JSON control-character escapes. -/
def hexDigit (n : Nat) : String :=
  if n = 0 then "0" else if n = 1 then "1" else if n = 2 then "2"
  else if n = 3 then "3" else if n = 4 then "4" else if n = 5 then "5"
  else if n = 6 then "6" else if n = 7 then "7" else if n = 8 then "8"
  else if n = 9 then "9" else if n = 10 then "a" else if n = 11 then "b"
  else if n = 12 then "c" else if n = 13 then "d" else if n = 14 then "e"
  else "f"

/-- JSON string escaping of one character (quote, backslash, the common
control escapes, and \u00XX for other control characters). -/
def jsonEscapeChar (c : Char) : String :=
  if c = '"' then "\\\""
  else if c = '\\' then "\\\\"
  else if c = '\n' then "\\n"
  else if c = '\t' then "\\t"
  else if c = '\r' then "\\r"
  else if c.toNat < 32 then "\\u00" ++ hexDigit (c.toNat / 16) ++ hexDigit (c.toNat % 16)
  else String.singleton c

/-- A JSON-quoted string literal. -/
def jsonQuote (s : String) : String :=
  "\"" ++ String.join (s.toList.map jsonEscapeChar) ++ "\""

/-- `n` levels of two-space indentation. -/
def indentStr (n : Nat) : String :=
  String.join (List.replicate n "  ")

mutual
/-- Python `json.dumps(j, indent=2)` rendered at nesting level `lvl`:
scalars inline, non-empty containers spread one element per line with
two-space indentation, item separator `,` and key separator `: `. -/
def dumpsAt : Nat → Json → String
  | _, Json.null => "null"
  | _, Json.bool true => "true"
  | _, Json.bool false => "false"
  | _, Json.num n => toString n
  | _, Json.str s => jsonQuote s
  | _, Json.arr [] => "[]"
  | lvl, Json.arr (x :: xs) =>
      "[\n" ++ dumpsItems (lvl + 1) x xs ++ "\n" ++ indentStr lvl ++ "]"
  | _, Json.obj [] => "\x7b\x7d"
  | lvl, Json.obj (kv :: kvs) =>
      "\x7b\n" ++ dumpsPairs (lvl + 1) kv kvs ++ "\n" ++ indentStr lvl ++ "\x7d"
termination_by _ j => sizeOf j

/-- Indented, comma/newline-separated array items. -/
def dumpsItems : Nat → Json → List Json → String
  | lvl, x, [] => indentStr lvl ++ dumpsAt lvl x
  | lvl, x, y :: ys => indentStr lvl ++ dumpsAt lvl x ++ ",\n" ++ dumpsItems lvl y ys
termination_by _ x xs => sizeOf x + sizeOf xs

/-- Indented, comma/newline-separated object members. -/
def dumpsPairs : Nat → (String × Json) → List (String × Json) → String
  | lvl, (k, v), [] => indentStr lvl ++ jsonQuote k ++ ": " ++ dumpsAt lvl v
  | lvl, (k, v), kv2 :: kvs =>
      indentStr lvl ++ jsonQuote k ++ ": " ++ dumpsAt lvl v ++ ",\n" ++ dumpsPairs lvl kv2 kvs
termination_by _ kv kvs => sizeOf kv + sizeOf kvs
end

/-- `json.dumps(j, indent=2)`. -/
def dumps2 (j : Json) : String := dumpsAt 0 j

/- ================================================================
   Snapshot serialization
   ================================================================ -/

/-- The JSON value of a `selection` field. -/
def selectionJson : Option SelectionInfo → Json
  | none => Json.null
  | some (SelectionInfo.cursor line column) =>
      Json.obj [("cursor", Json.obj [("line", Json.num line), ("column", Json.num column)])]
  | some (SelectionInfo.range sl sc el ec) =>
      Json.obj [("start", Json.obj [("line", Json.num sl), ("column", Json.num sc)]),
                ("end", Json.obj [("line", Json.num el), ("column", Json.num ec)])]

/-- The JSON value of a file entry. -/
def fileEntryJson (e : FileEntry) : Json :=
  Json.obj [("path", Json.str e.path), ("selection", selectionJson e.selection)]

/-- The JSON value of a snapshot, keys in the dict's insertion order. -/
def snapshotJson (s : Snapshot) : Json :=
  Json.obj [("activeFiles", Json.arr (s.activeFiles.map fileEntryJson)),
            ("otherFiles", Json.arr (s.otherFiles.map fileEntryJson)),
            ("projectFolders", Json.arr (s.projectFolders.map Json.str)),
            ("lastUpdated", Json.str s.lastUpdated)]

/- ================================================================
   Python exceptions
   ================================================================ -/

/-- The Python exceptions the handler can meet, each carrying the string
`str(e)` would produce. -/
inductive PyError where
  | attributeError (m : String)
  | valueError (m : String)
  | unicodeDecodeError (m : String)
  | jsonDecodeError (m : String)
  | unboundLocalError (m : String)
  | oserror (m : String)
deriving DecidableEq

/-- Python `str(e)`: the exception's message. -/
def PyError.msg : PyError → String
  | .attributeError m => m
  | .valueError m => m
  | .unicodeDecodeError m => m
  | .jsonDecodeError m => m
  | .unboundLocalError m => m
  | .oserror m => m

/-- Python `x.get(k)` on an arbitrary loaded value: only dicts have
`get`; every other type raises AttributeError. -/
def pyGetOpt (j : Json) (k : String) : Except PyError (Option Json) :=
  match j with
  | Json.obj kvs => Except.ok (jget kvs k)
  | other => Except.error (PyError.attributeError
      ("\x27" ++ pyTypeName other ++ "\x27 object has no attribute \x27get\x27"))

/- ================================================================
   MCP request handling (MCPRequestHandler, lines 92-209)
   ================================================================ -/

/-- The `initialize` success envelope (lines 145-158). -/
def initializeResponse (request_id : Json) : Json :=
  Json.obj [("jsonrpc", Json.str "2.0"),
    ("result", Json.obj [
       ("protocolVersion", Json.str "2024-11-05"),
       ("capabilities", Json.obj [("resources", Json.obj [])]),
       ("serverInfo", Json.obj [("name", Json.str "sublime-editor-context"),
                                ("version", Json.str "0.1.0")])]),
    ("id", request_id)]

/-- The `resources/list` success envelope (lines 161-174). -/
def resourcesListResponse (request_id : Json) : Json :=
  Json.obj [("jsonrpc", Json.str "2.0"),
    ("result", Json.obj [
       ("resources", Json.arr [
          Json.obj [("uri", Json.str "sublime-context://state"),
                    ("name", Json.str "Editor State"),
                    ("description", Json.str "Complete editor state with active files per window and other open files"),
                    ("mimeType", Json.str "application/json")]])]),
    ("id", request_id)]

/-- The `resources/read` success envelope (lines 180-192). -/
def readResponse (uri : Option Json) (content : String) (request_id : Json) : Json :=
  Json.obj [("jsonrpc", Json.str "2.0"),
    ("result", Json.obj [
       ("contents", Json.arr [
          Json.obj [("uri", (uri.getD Json.null)),
                    ("mimeType", Json.str "application/json"),
                    ("text", Json.str content)]])]),
    ("id", request_id)]

/-- The dispatcher-level MethodNotFound error envelope (lines 195-202). -/
def methodNotFoundResponse (method : Option Json) (request_id : Json) : Json :=
  Json.obj [("jsonrpc", Json.str "2.0"),
    ("error", Json.obj [("code", Json.num (-32601)),
                        ("message", Json.str ("Method not found: " ++ pyStrOpt method))]),
    ("id", request_id)]

/-- Python `uri == "sublime-context://state"` where `uri` is
`params.get("uri")` (possibly None, possibly any JSON value). -/
def isStateUri : Option Json → Bool
  | some (Json.str s) => s = "sublime-context://state"
  | _ => false

/-- Python `method == s` where `method` is `request.get("method")`
(possibly None, possibly any JSON value) and `s` a string literal. -/
def isMethodStr (m : Option Json) (s : String) : Bool :=
  match m with
  | some (Json.str t) => t = s
  | _ => false

/-- `MCPRequestHandler.get_resource_content` (lines 204-209): the
recognized URI yields the snapshot serialized by `json.dumps(.., indent=2)`;
anything else raises `ValueError("Unknown resource URI: ..." )`. -/
def get_resource_content (st : SublimeState) (now : String) (uri : Option Json) :
    Except PyError String :=
  if isStateUri uri then
    Except.ok (dumps2 (snapshotJson (get_state_snapshot st now)))
  else
    Except.error (PyError.valueError ("Unknown resource URI: " ++ pyStrOpt uri))

/-- `MCPRequestHandler.handle_mcp_request` (lines 138-202).  The request
is the object `json.loads` returned; `request.get` raises AttributeError
on a non-dict.  `method`, `params` (default empty dict), `request_id`
(None when absent) are read with `dict.get`, then dispatched by string
comparison; an unmatched method falls into the MethodNotFound envelope. -/
def handle_mcp_request (st : SublimeState) (now : String) (request : Json) :
    Except PyError Json :=
  match request with
  | Json.obj kvs =>
    let method := jget kvs "method"
    let params := (jget kvs "params").getD (Json.obj [])
    let request_id := (jget kvs "id").getD Json.null
    if isMethodStr method "initialize" then
      Except.ok (initializeResponse request_id)
    else if isMethodStr method "resources/list" then
      Except.ok (resourcesListResponse request_id)
    else if isMethodStr method "resources/read" then
      match pyGetOpt params "uri" with
      | Except.error e => Except.error e
      | Except.ok uri =>
        match get_resource_content st now uri with
        | Except.error e => Except.error e
        | Except.ok content => Except.ok (readResponse uri content request_id)
    else
      Except.ok (methodNotFoundResponse method request_id)
  | other => Except.error (PyError.attributeError
      ("\x27" ++ pyTypeName other ++ "\x27 object has no attribute \x27get\x27"))

/-- The HTTP response the handler writes: status code, Content-type
header, and the JSON value whose `json.dumps` is the body. -/
structure HttpResponse where
  status : Nat
  contentType : Option String
  body : Json

/-- Best-effort id extraction of the except block (line 131):
`request.get("id") if isinstance(request, dict) else None`, with `request`
bound to the loaded value. -/
def bestEffortId : Json → Json
  | Json.obj kvs => (jget kvs "id").getD Json.null
  | _ => Json.null

/-- `MCPRequestHandler.do_POST` (lines 111-136).  `decoded` is the outcome
of `self.rfile.read(..).decode("utf-8")` (line 114) and `parsed` the
outcome of `json.loads(body)` (line 117); both stdlib calls are modelled
by their outcomes.  Two consequences of the source's control flow are
modelled exactly:
the read/decode of line 114 sits OUTSIDE the try block, so a decode
failure propagates out of `do_POST`; and when `json.loads` itself raises,
the local `request` was never assigned, so evaluating
`isinstance(request, dict)` in the except block (line 131) raises
UnboundLocalError out of `do_POST` before any response is written. -/
def do_POST (st : SublimeState) (now : String)
    (decoded : Except PyError Unit) (parsed : Except PyError Json) :
    Except PyError HttpResponse :=
  match decoded with
  | Except.error e => Except.error e
  | Except.ok _ =>
    match parsed with
    | Except.error _ =>
      Except.error (PyError.unboundLocalError
        "local variable \x27request\x27 referenced before assignment")
    | Except.ok request =>
      match handle_mcp_request st now request with
      | Except.ok response =>
        Except.ok { status := 200, contentType := some "application/json", body := response }
      | Except.error e =>
        let errBody := Json.obj [("jsonrpc", Json.str "2.0"),
          ("error", Json.obj [("code", Json.num (-32603)),
                              ("message", Json.str e.msg)]),
          ("id", bestEffortId request)]
        Except.ok { status := 500, contentType := some "application/json", body := errBody }

/- ================================================================
   Server lifecycle (MCPServer, lines 212-249)
   ================================================================ -/

/-- The TCP server object built by `socketserver.TCPServer(addr, handler)`.
`reuseAtBind` records whether SO_REUSEADDR was applied to the socket when
it was bound; `allow_reuse_address` is the attribute's current value.
Per the socketserver library, the constructor (with its default
`bind_and_activate=True`) calls `server_bind()` immediately, and
`server_bind` consults `allow_reuse_address` — at that moment still the
class default False — before binding. -/
structure TCPSocket where
  host : String
  port : Nat
  reuseAtBind : Bool
  allow_reuse_address : Bool
deriving DecidableEq, Repr

/-- `socketserver.TCPServer(("127.0.0.1", port), handler)`: binds during
construction with the class-default `allow_reuse_address = False`. -/
def TCPServer_new (host : String) (port : Nat) : TCPSocket :=
  { host := host, port := port, reuseAtBind := false, allow_reuse_address := false }

/-- `self.server.allow_reuse_address = True` (line 228): sets the
attribute on the already-bound server. -/
def setAllowReuse (s : TCPSocket) : TCPSocket :=
  { s with allow_reuse_address := true }

/-- The `MCPServer` instance state: `port`, `server` (None until a
successful bind), whether the background thread was started, and the
`running` flag. -/
structure MCPServerState where
  port : Nat
  server : Option TCPSocket
  threadStarted : Bool
  running : Bool
deriving DecidableEq, Repr

/-- `MCPServer.__init__(port)` (lines 215-219). -/
def MCPServer_new (port : Nat) : MCPServerState :=
  { port := port, server := none, threadStarted := false, running := false }

/-- Outcome of the bind performed inside the `TCPServer` constructor:
either it succeeds or it raises an OSError with the given message. -/
inductive BindOutcome where
  | success
  | failure (m : String)

/-- `MCPServer.start` (lines 221-237): a no-op when already running;
otherwise the try block constructs the TCPServer (which binds), sets
`allow_reuse_address`, flips `running`, starts the daemon thread and
prints; `except Exception` catches a bind failure and only prints.  The
result pairs the new state with the lines printed; the `Except` layer
shows what escapes to the caller. -/
def MCPServer_start (s : MCPServerState) (o : BindOutcome) :
    Except PyError (MCPServerState × List String) :=
  if s.running then Except.ok (s, [])
  else
    match (match o with
           | BindOutcome.failure m => Except.error (PyError.oserror m)
           | BindOutcome.success =>
               Except.ok (setAllowReuse (TCPServer_new "127.0.0.1" s.port))) with
    | Except.error e =>
        Except.ok (s, ["EditorContextMCP: Failed to start server: " ++ e.msg])
    | Except.ok srv =>
        Except.ok ({ s with server := some srv, running := true, threadStarted := true },
          ["EditorContextMCP: Server started on http://127.0.0.1:" ++ toString s.port])

/- ================================================================
   First-view search (the processing order of get_state_snapshot)
   ================================================================ -/

/-- The first view in `vs` (the host's native view order) whose file name
is `some p`. -/
def findView (p : String) : List View → Option View
  | [] => none
  | v :: vs => if v.file_name = some p then some v else findView p vs

/-- The first view holding path `p` over a window list in enumeration
order, paired with the active path of the window containing it. -/
def findViewW (p : String) : List Window → Option (Option String × View)
  | [] => none
  | w :: ws =>
    match findView p w.views with
    | some v => some (w.active_view.bind View.file_name, v)
    | none => findViewW p ws

/- ================================================================
   Lemmas about the snapshot fold
   ================================================================ -/

/-- The entries of a list whose path is `p`. -/
def filterPath (p : String) (l : List FileEntry) : List FileEntry :=
  l.filter (fun e => decide (e.path = p))

theorem filterPath_append (p : String) (l1 l2 : List FileEntry) :
    filterPath p (l1 ++ l2) = filterPath p l1 ++ filterPath p l2 := by
  simp [filterPath]

theorem filterPath_single_ne (p fn : String) (v : View) (h : fn ≠ p) :
    filterPath p [mkFileEntry fn v] = [] := by
  simp [filterPath, mkFileEntry, h]

theorem filterPath_single_eq (p : String) (v : View) :
    filterPath p [mkFileEntry p v] = [mkFileEntry p v] := by
  simp [filterPath, mkFileEntry]

theorem processView_file_none (ap : Option String) (acc : SnapAcc) (v : View)
    (h : v.file_name = none) : processView ap acc v = acc := by
  unfold processView; rw [h]

theorem processView_file_empty (ap : Option String) (acc : SnapAcc) (v : View)
    (h : v.file_name = some "") : processView ap acc v = acc := by
  unfold processView; rw [h]; simp

theorem processView_file_seen (ap : Option String) (acc : SnapAcc) (v : View) (fn : String)
    (h : v.file_name = some fn) (hne : fn ≠ "") (hs : fn ∈ acc.seen_files) :
    processView ap acc v = acc := by
  unfold processView; rw [h]; simp [hne, hs]

theorem processView_file_new_active (ap : Option String) (acc : SnapAcc) (v : View) (fn : String)
    (h : v.file_name = some fn) (hne : fn ≠ "") (hs : fn ∉ acc.seen_files) (ha : some fn = ap) :
    processView ap acc v =
      { acc with seen_files := fn :: acc.seen_files,
                 active_files := acc.active_files ++ [mkFileEntry fn v] } := by
  unfold processView; rw [h]; simp [hne, hs, ha]

theorem processView_file_new_other (ap : Option String) (acc : SnapAcc) (v : View) (fn : String)
    (h : v.file_name = some fn) (hne : fn ≠ "") (hs : fn ∉ acc.seen_files) (ha : ¬ some fn = ap) :
    processView ap acc v =
      { acc with seen_files := fn :: acc.seen_files,
                 other_files := acc.other_files ++ [mkFileEntry fn v] } := by
  unfold processView; rw [h]; simp [hne, hs, ha]

/-- Once a path is in `seen_files`, the view loop never adds another entry
for it and it stays seen. -/
theorem viewsFold_seen (ap : Option String) (p : String) :
    ∀ (vs : List View) (acc : SnapAcc), p ∈ acc.seen_files →
      p ∈ (vs.foldl (processView ap) acc).seen_files ∧
      filterPath p (vs.foldl (processView ap) acc).active_files
        = filterPath p acc.active_files ∧
      filterPath p (vs.foldl (processView ap) acc).other_files
        = filterPath p acc.other_files := by
  intro vs
  induction vs with
  | nil => intro acc h; exact ⟨h, rfl, rfl⟩
  | cons v vs ih =>
    intro acc h
    have step : p ∈ (processView ap acc v).seen_files ∧
        filterPath p (processView ap acc v).active_files = filterPath p acc.active_files ∧
        filterPath p (processView ap acc v).other_files = filterPath p acc.other_files := by
      cases hv : v.file_name with
      | none => rw [processView_file_none ap acc v hv]; exact ⟨h, rfl, rfl⟩
      | some fn =>
        by_cases hne : fn = ""
        · subst hne; rw [processView_file_empty ap acc v hv]; exact ⟨h, rfl, rfl⟩
        · by_cases hs : fn ∈ acc.seen_files
          · rw [processView_file_seen ap acc v fn hv hne hs]; exact ⟨h, rfl, rfl⟩
          · have hfp : fn ≠ p := fun hc => hs (hc ▸ h)
            by_cases ha : some fn = ap
            · rw [processView_file_new_active ap acc v fn hv hne hs ha]
              refine ⟨List.mem_cons_of_mem fn h, ?_, rfl⟩
              rw [filterPath_append, filterPath_single_ne p fn v hfp, List.append_nil]
            · rw [processView_file_new_other ap acc v fn hv hne hs ha]
              refine ⟨List.mem_cons_of_mem fn h, rfl, ?_⟩
              rw [filterPath_append, filterPath_single_ne p fn v hfp, List.append_nil]
    obtain ⟨h1, h2, h3⟩ := step
    have hr := ih (processView ap acc v) h1
    exact ⟨hr.1, hr.2.1.trans h2, hr.2.2.trans h3⟩

/-- A path no view of the list holds is neither added to `seen_files` nor
given an entry by the view loop. -/
theorem viewsFold_not_found (ap : Option String) (p : String) :
    ∀ (vs : List View) (acc : SnapAcc), findView p vs = none → p ∉ acc.seen_files →
      p ∉ (vs.foldl (processView ap) acc).seen_files ∧
      filterPath p (vs.foldl (processView ap) acc).active_files
        = filterPath p acc.active_files ∧
      filterPath p (vs.foldl (processView ap) acc).other_files
        = filterPath p acc.other_files := by
  intro vs
  induction vs with
  | nil => intro acc _ h; exact ⟨h, rfl, rfl⟩
  | cons v vs ih =>
    intro acc hf h
    have hvne : ¬ v.file_name = some p := by
      intro hc; unfold findView at hf; rw [if_pos hc] at hf; exact Option.noConfusion hf
    have hf2 : findView p vs = none := by
      unfold findView at hf; rwa [if_neg hvne] at hf
    have step : p ∉ (processView ap acc v).seen_files ∧
        filterPath p (processView ap acc v).active_files = filterPath p acc.active_files ∧
        filterPath p (processView ap acc v).other_files = filterPath p acc.other_files := by
      cases hv : v.file_name with
      | none => rw [processView_file_none ap acc v hv]; exact ⟨h, rfl, rfl⟩
      | some fn =>
        have hfp : fn ≠ p := fun hc => hvne (hv.trans (congrArg some hc))
        by_cases hne : fn = ""
        · subst hne; rw [processView_file_empty ap acc v hv]; exact ⟨h, rfl, rfl⟩
        · by_cases hs : fn ∈ acc.seen_files
          · rw [processView_file_seen ap acc v fn hv hne hs]; exact ⟨h, rfl, rfl⟩
          · have hsp : p ∉ fn :: acc.seen_files := by
              intro hc
              rcases List.mem_cons.mp hc with hc1 | hc2
              · exact hfp hc1.symm
              · exact h hc2
            by_cases ha : some fn = ap
            · rw [processView_file_new_active ap acc v fn hv hne hs ha]
              refine ⟨hsp, ?_, rfl⟩
              rw [filterPath_append, filterPath_single_ne p fn v hfp, List.append_nil]
            · rw [processView_file_new_other ap acc v fn hv hne hs ha]
              refine ⟨hsp, rfl, ?_⟩
              rw [filterPath_append, filterPath_single_ne p fn v hfp, List.append_nil]
    obtain ⟨h1, h2, h3⟩ := step
    have hr := ih (processView ap acc v) hf2 h1
    exact ⟨hr.1, hr.2.1.trans h2, hr.2.2.trans h3⟩

/-- When the first view holding an unseen, non-empty path `p` is `v`, the
view loop adds exactly the entry built from `v`, to `active_files` iff
the window's active path is `p`, and marks `p` seen. -/
theorem viewsFold_found (ap : Option String) (p : String) (hp : p ≠ "") :
    ∀ (vs : List View) (acc : SnapAcc) (v : View),
      findView p vs = some v → p ∉ acc.seen_files →
      p ∈ (vs.foldl (processView ap) acc).seen_files ∧
      filterPath p (vs.foldl (processView ap) acc).active_files
        = filterPath p acc.active_files ++ (if some p = ap then [mkFileEntry p v] else []) ∧
      filterPath p (vs.foldl (processView ap) acc).other_files
        = filterPath p acc.other_files ++ (if some p = ap then [] else [mkFileEntry p v]) := by
  intro vs
  induction vs with
  | nil => intro acc v hf; exact absurd hf (by unfold findView; exact Option.noConfusion)
  | cons v0 vs ih =>
    intro acc v hf h
    by_cases hv0 : v0.file_name = some p
    · have hveq : v = v0 := by
        unfold findView at hf; rw [if_pos hv0] at hf; exact (Option.some.inj hf).symm
      subst hveq
      by_cases ha : some p = ap
      · rw [List.foldl_cons, processView_file_new_active ap acc v p hv0 hp h ha]
        have hr := viewsFold_seen ap p vs
          { acc with seen_files := p :: acc.seen_files,
                     active_files := acc.active_files ++ [mkFileEntry p v] }
          (List.mem_cons_self p acc.seen_files)
        refine ⟨hr.1, ?_, ?_⟩
        · rw [hr.2.1]
          show filterPath p (acc.active_files ++ [mkFileEntry p v]) = _
          rw [filterPath_append, filterPath_single_eq, if_pos ha]
        · rw [hr.2.2, if_pos ha, List.append_nil]
      · rw [List.foldl_cons, processView_file_new_other ap acc v p hv0 hp h ha]
        have hr := viewsFold_seen ap p vs
          { acc with seen_files := p :: acc.seen_files,
                     other_files := acc.other_files ++ [mkFileEntry p v] }
          (List.mem_cons_self p acc.seen_files)
        refine ⟨hr.1, ?_, ?_⟩
        · rw [hr.2.1, if_neg ha, List.append_nil]
        · rw [hr.2.2]
          show filterPath p (acc.other_files ++ [mkFileEntry p v]) = _
          rw [filterPath_append, filterPath_single_eq, if_neg ha]
    · have hf2 : findView p vs = some v := by
        unfold findView at hf; rwa [if_neg hv0] at hf
      have step : p ∉ (processView ap acc v0).seen_files ∧
          filterPath p (processView ap acc v0).active_files = filterPath p acc.active_files ∧
          filterPath p (processView ap acc v0).other_files = filterPath p acc.other_files := by
        cases hv : v0.file_name with
        | none => rw [processView_file_none ap acc v0 hv]; exact ⟨h, rfl, rfl⟩
        | some fn =>
          have hfp : fn ≠ p := fun hc => hv0 (hv.trans (congrArg some hc))
          by_cases hne : fn = ""
          · subst hne; rw [processView_file_empty ap acc v0 hv]; exact ⟨h, rfl, rfl⟩
          · by_cases hs : fn ∈ acc.seen_files
            · rw [processView_file_seen ap acc v0 fn hv hne hs]; exact ⟨h, rfl, rfl⟩
            · have hsp : p ∉ fn :: acc.seen_files := by
                intro hc
                rcases List.mem_cons.mp hc with hc1 | hc2
                · exact hfp hc1.symm
                · exact h hc2
              by_cases ha : some fn = ap
              · rw [processView_file_new_active ap acc v0 fn hv hne hs ha]
                refine ⟨hsp, ?_, rfl⟩
                rw [filterPath_append, filterPath_single_ne p fn v0 hfp, List.append_nil]
              · rw [processView_file_new_other ap acc v0 fn hv hne hs ha]
                refine ⟨hsp, rfl, ?_⟩
                rw [filterPath_append, filterPath_single_ne p fn v0 hfp, List.append_nil]
      obtain ⟨h1, h2, h3⟩ := step
      have hr := ih (processView ap acc v0) v hf2 h1
      rw [List.foldl_cons]
      exact ⟨hr.1, hr.2.1.trans (by rw [h2]), hr.2.2.trans (by rw [h3])⟩

/-- A window step neither drops a seen path nor adds a second entry for
it. -/
theorem windowsFold_seen (p : String) :
    ∀ (ws : List Window) (acc : SnapAcc), p ∈ acc.seen_files →
      p ∈ (ws.foldl processWindow acc).seen_files ∧
      filterPath p (ws.foldl processWindow acc).active_files
        = filterPath p acc.active_files ∧
      filterPath p (ws.foldl processWindow acc).other_files
        = filterPath p acc.other_files := by
  intro ws
  induction ws with
  | nil => intro acc h; exact ⟨h, rfl, rfl⟩
  | cons w ws ih =>
    intro acc h
    rw [List.foldl_cons]
    have hw : processWindow acc w = w.views.foldl
        (processView (w.active_view.bind View.file_name))
        { acc with project_folders := addFolders acc.project_folders w.folders } := rfl
    rw [hw]
    have hstep := viewsFold_seen (w.active_view.bind View.file_name) p w.views
      { acc with project_folders := addFolders acc.project_folders w.folders } h
    have hr := ih _ hstep.1
    exact ⟨hr.1, hr.2.1.trans hstep.2.1, hr.2.2.trans hstep.2.2⟩

/-- A path no view of any window holds gets no entry from the window
loop. -/
theorem windowsFold_not_found (p : String) :
    ∀ (ws : List Window) (acc : SnapAcc), findViewW p ws = none → p ∉ acc.seen_files →
      p ∉ (ws.foldl processWindow acc).seen_files ∧
      filterPath p (ws.foldl processWindow acc).active_files
        = filterPath p acc.active_files ∧
      filterPath p (ws.foldl processWindow acc).other_files
        = filterPath p acc.other_files := by
  intro ws
  induction ws with
  | nil => intro acc _ h; exact ⟨h, rfl, rfl⟩
  | cons w ws ih =>
    intro acc hf h
    cases hfv : findView p w.views with
    | some v0 =>
      exfalso
      unfold findViewW at hf
      rw [hfv] at hf
      exact Option.noConfusion hf
    | none =>
      have hf2 : findViewW p ws = none := by
        unfold findViewW at hf
        rwa [hfv] at hf
      rw [List.foldl_cons]
      have hw : processWindow acc w = w.views.foldl
          (processView (w.active_view.bind View.file_name))
          { acc with project_folders := addFolders acc.project_folders w.folders } := rfl
      rw [hw]
      have hstep := viewsFold_not_found (w.active_view.bind View.file_name) p w.views
        { acc with project_folders := addFolders acc.project_folders w.folders } hfv h
      have hr := ih _ hf2 hstep.1
      exact ⟨hr.1, hr.2.1.trans hstep.2.1, hr.2.2.trans hstep.2.2⟩

/-- When the first view holding the unseen, non-empty path `p` — scanning
windows in enumeration order and views in native order — is `v`, in a
window whose active path is `ap`, the whole window loop adds exactly the
entry `mkFileEntry p v`, to `active_files` iff `ap = some p`. -/
theorem windowsFold_found (p : String) (hp : p ≠ "") :
    ∀ (ws : List Window) (acc : SnapAcc) (ap : Option String) (v : View),
      findViewW p ws = some (ap, v) → p ∉ acc.seen_files →
      p ∈ (ws.foldl processWindow acc).seen_files ∧
      filterPath p (ws.foldl processWindow acc).active_files
        = filterPath p acc.active_files ++ (if some p = ap then [mkFileEntry p v] else []) ∧
      filterPath p (ws.foldl processWindow acc).other_files
        = filterPath p acc.other_files ++ (if some p = ap then [] else [mkFileEntry p v]) := by
  intro ws
  induction ws with
  | nil =>
    intro acc ap v hf
    exact absurd hf (by unfold findViewW; exact Option.noConfusion)
  | cons w ws ih =>
    intro acc ap v hf h
    rw [List.foldl_cons]
    have hw : processWindow acc w = w.views.foldl
        (processView (w.active_view.bind View.file_name))
        { acc with project_folders := addFolders acc.project_folders w.folders } := rfl
    rw [hw]
    cases hfv : findView p w.views with
    | some v0 =>
      have hap : ap = w.active_view.bind View.file_name ∧ v = v0 := by
        unfold findViewW at hf
        rw [hfv] at hf
        have := Option.some.inj hf
        exact ⟨(congrArg Prod.fst this).symm, (congrArg Prod.snd this).symm⟩
      obtain ⟨hap1, hap2⟩ := hap
      subst hap1; subst hap2
      have hstep := viewsFold_found (w.active_view.bind View.file_name) p hp w.views
        { acc with project_folders := addFolders acc.project_folders w.folders } v hfv h
      have hr := windowsFold_seen p ws _ hstep.1
      refine ⟨hr.1, hr.2.1.trans ?_, hr.2.2.trans ?_⟩
      · exact hstep.2.1
      · exact hstep.2.2
    | none =>
      have hf2 : findViewW p ws = some (ap, v) := by
        unfold findViewW at hf
        rwa [hfv] at hf
      have hstep := viewsFold_not_found (w.active_view.bind View.file_name) p w.views
        { acc with project_folders := addFolders acc.project_folders w.folders } hfv h
      have hr := ih _ ap v hf2 hstep.1
      refine ⟨hr.1, hr.2.1.trans ?_, hr.2.2.trans ?_⟩
      · rw [hstep.2.1]
      · rw [hstep.2.2]

/-- The view loop never creates an entry whose path is the empty string
(Python truthiness of `file_name` filters it out). -/
theorem viewsFold_empty_path (ap : Option String) :
    ∀ (vs : List View) (acc : SnapAcc),
      filterPath "" (vs.foldl (processView ap) acc).active_files
        = filterPath "" acc.active_files ∧
      filterPath "" (vs.foldl (processView ap) acc).other_files
        = filterPath "" acc.other_files := by
  intro vs
  induction vs with
  | nil => intro acc; exact ⟨rfl, rfl⟩
  | cons v vs ih =>
    intro acc
    have step : filterPath "" (processView ap acc v).active_files
          = filterPath "" acc.active_files ∧
        filterPath "" (processView ap acc v).other_files
          = filterPath "" acc.other_files := by
      cases hv : v.file_name with
      | none => rw [processView_file_none ap acc v hv]; exact ⟨rfl, rfl⟩
      | some fn =>
        by_cases hne : fn = ""
        · subst hne; rw [processView_file_empty ap acc v hv]; exact ⟨rfl, rfl⟩
        · by_cases hs : fn ∈ acc.seen_files
          · rw [processView_file_seen ap acc v fn hv hne hs]; exact ⟨rfl, rfl⟩
          · by_cases ha : some fn = ap
            · rw [processView_file_new_active ap acc v fn hv hne hs ha]
              refine ⟨?_, rfl⟩
              rw [filterPath_append, filterPath_single_ne "" fn v hne, List.append_nil]
            · rw [processView_file_new_other ap acc v fn hv hne hs ha]
              refine ⟨rfl, ?_⟩
              rw [filterPath_append, filterPath_single_ne "" fn v hne, List.append_nil]
    have hr := ih (processView ap acc v)
    exact ⟨hr.1.trans step.1, hr.2.trans step.2⟩

/-- The window loop never creates an entry whose path is the empty
string. -/
theorem windowsFold_empty_path :
    ∀ (ws : List Window) (acc : SnapAcc),
      filterPath "" (ws.foldl processWindow acc).active_files
        = filterPath "" acc.active_files ∧
      filterPath "" (ws.foldl processWindow acc).other_files
        = filterPath "" acc.other_files := by
  intro ws
  induction ws with
  | nil => intro acc; exact ⟨rfl, rfl⟩
  | cons w ws ih =>
    intro acc
    rw [List.foldl_cons]
    have hw : processWindow acc w = w.views.foldl
        (processView (w.active_view.bind View.file_name))
        { acc with project_folders := addFolders acc.project_folders w.folders } := rfl
    rw [hw]
    have hstep := viewsFold_empty_path (w.active_view.bind View.file_name) w.views
      { acc with project_folders := addFolders acc.project_folders w.folders }
    have hr := ih (w.views.foldl (processView (w.active_view.bind View.file_name))
      { acc with project_folders := addFolders acc.project_folders w.folders })
    exact ⟨hr.1.trans hstep.1, hr.2.trans hstep.2⟩

theorem findView_none_forall (p : String) :
    ∀ (vs : List View), findView p vs = none → ∀ v ∈ vs, v.file_name ≠ some p := by
  intro vs
  induction vs with
  | nil => intro _ v hv; exact absurd hv (List.not_mem_nil v)
  | cons v0 vs ih =>
    intro hf v hv
    have hv0 : ¬ v0.file_name = some p := by
      intro hc; unfold findView at hf; rw [if_pos hc] at hf; exact Option.noConfusion hf
    have hf2 : findView p vs = none := by
      unfold findView at hf; rwa [if_neg hv0] at hf
    rcases List.mem_cons.mp hv with h1 | h2
    · subst h1; exact hv0
    · exact ih hf2 v h2

theorem findViewW_none_forall (p : String) :
    ∀ (ws : List Window), findViewW p ws = none → ∀ w ∈ ws, findView p w.views = none := by
  intro ws
  induction ws with
  | nil => intro _ w hw; exact absurd hw (List.not_mem_nil w)
  | cons w0 ws ih =>
    intro hf w hw
    cases hfv : findView p w0.views with
    | some v0 =>
      exfalso; unfold findViewW at hf; rw [hfv] at hf; exact Option.noConfusion hf
    | none =>
      have hf2 : findViewW p ws = none := by
        unfold findViewW at hf; rwa [hfv] at hf
      rcases List.mem_cons.mp hw with h1 | h2
      · subst h1; exact hfv
      · exact ih hf2 w h2

/-- A path held by some view of some window is found by the first-view
search. -/
theorem findViewW_isSome_of_exists (p : String) (ws : List Window)
    (h : ∃ w ∈ ws, ∃ v ∈ w.views, v.file_name = some p) :
    ∃ ap v, findViewW p ws = some (ap, v) := by
  cases hf : findViewW p ws with
  | some x =>
    obtain ⟨a, v⟩ := x
    exact ⟨a, v, rfl⟩
  | none =>
    exfalso
    obtain ⟨w, hw, v, hv, hfile⟩ := h
    exact findView_none_forall p w.views (findViewW_none_forall p ws hf w hw) v hv hfile

theorem findView_none_of_forall (p : String) :
    ∀ (vs : List View), (∀ v ∈ vs, v.file_name ≠ some p) → findView p vs = none := by
  intro vs
  induction vs with
  | nil => intro; rfl
  | cons v0 vs ih =>
    intro h
    unfold findView
    rw [if_neg (h v0 (List.mem_cons_self v0 vs))]
    exact ih (fun v hv => h v (List.mem_cons_of_mem v0 hv))

theorem findViewW_none_of_forall (p : String) :
    ∀ (ws : List Window), (∀ w ∈ ws, ∀ v ∈ w.views, v.file_name ≠ some p) →
      findViewW p ws = none := by
  intro ws
  induction ws with
  | nil => intro; rfl
  | cons w0 ws ih =>
    intro h
    unfold findViewW
    rw [findView_none_of_forall p w0.views (h w0 (List.mem_cons_self w0 ws))]
    exact ih (fun w hw => h w (List.mem_cons_of_mem w0 hw))

theorem isMethodStr_eq_false (m : Option Json) (s : String)
    (h : m ≠ some (Json.str s)) : isMethodStr m s = false := by
  cases m with
  | none => rfl
  | some j =>
    cases j with
    | str t =>
      by_cases ht : t = s
      · exact absurd (by rw [ht]) h
      · simp [isMethodStr, ht]
    | null => rfl
    | bool b => rfl
    | num n => rfl
    | arr xs => rfl
    | obj kvs => rfl

theorem addFolders_append (pf : List String) (xs ys : List String) :
    addFolders pf (xs ++ ys) = addFolders (addFolders pf xs) ys := by
  simp [addFolders]

/- ================================================================
   Claim theorems
   ================================================================ -/

/-- C1 (code bug): for a POST whose body fails JSON parsing, the source
does NOT answer 500 with a -32603 envelope: the except block of
`do_POST` reads the local `request`, which was never assigned when
`json.loads` raised, so the handler raises UnboundLocalError out of the
per-request boundary; and a UTF-8 decode failure happens before the try
block, so it, too, escapes.  This theorem evaluates the embedded
`do_POST` on both failing inputs. -/
theorem C1_malformed_body_escapes :
    (do_POST ⟨[]⟩ "2024-01-01T00:00:00" (Except.ok ())
        (Except.error (PyError.jsonDecodeError "Expecting value: line 1 column 1 (char 0)"))
      = Except.error (PyError.unboundLocalError
          "local variable \x27request\x27 referenced before assignment"))
    ∧ (do_POST ⟨[]⟩ "2024-01-01T00:00:00"
        (Except.error (PyError.unicodeDecodeError
          "\x27utf-8\x27 codec can\x27t decode byte 0xff in position 0: invalid start byte"))
        (Except.error (PyError.jsonDecodeError "unreached"))
      = Except.error (PyError.unicodeDecodeError
          "\x27utf-8\x27 codec can\x27t decode byte 0xff in position 0: invalid start byte")) :=
  ⟨rfl, rfl⟩

/-- C3: the `selection` of a view included in the snapshot is None when
the view has no selection regions; a cursor `(row+1, col)` when the first
region is empty at internal `(row, col)`; and a start/end span built from
`rowcol(begin)` and `rowcol(end)` (lines 1-based, columns 0-based) when
the first region is non-empty.  Only the first region is consulted: the
tail `rest` is universally quantified and unused. -/
theorem C3_selection_shape (v : View) :
    (v.sel = [] → selectionInfo v = none)
    ∧ (∀ r rest row col, v.sel = r :: rest → r.a = r.b →
        v.rowcol (min r.a r.b) = (row, col) →
        selectionInfo v = some (SelectionInfo.cursor (row + 1) col))
    ∧ (∀ r rest r1 c1 r2 c2, v.sel = r :: rest → r.a ≠ r.b →
        v.rowcol (min r.a r.b) = (r1, c1) → v.rowcol (max r.a r.b) = (r2, c2) →
        selectionInfo v = some (SelectionInfo.range (r1 + 1) c1 (r2 + 1) c2)) := by
  refine ⟨?_, ?_, ?_⟩
  · intro h; unfold selectionInfo; rw [h]
  · intro r rest row col h he hr
    unfold selectionInfo
    rw [h]
    simp only [he, min_self] at hr
    simp [he, hr]
  · intro r rest r1 c1 r2 c2 h hne hr1 hr2
    unfold selectionInfo
    rw [h]
    simp [hne, hr1, hr2]

/-- Witness for C3 at the spec's concrete examples: an empty region at
internal row 3, column 5 gives a cursor at line 4, column 5; a region
spanning internal (0,0)-(1,2) gives start line 1 column 0, end line 2
column 2. -/
theorem C3_selection_shape_witness :
    selectionInfo { file_name := some "/t", sel := [], rowcol := fun _ => (0, 0) } = none
    ∧ selectionInfo { file_name := some "/t", sel := [⟨7, 7⟩], rowcol := fun _ => (3, 5) }
      = some (SelectionInfo.cursor 4 5)
    ∧ selectionInfo { file_name := some "/t", sel := [⟨0, 9⟩],
                      rowcol := fun n => if n = 0 then (0, 0) else (1, 2) }
      = some (SelectionInfo.range 1 0 2 2) :=
  ⟨(C3_selection_shape _).1 rfl,
   (C3_selection_shape _).2.1 ⟨7, 7⟩ [] 3 5 rfl rfl rfl,
   (C3_selection_shape _).2.2 ⟨0, 9⟩ [] 0 0 1 2 rfl (by decide) rfl rfl⟩

/-- C5: a parsed request object whose `method` is none of the three
recognized strings — including a missing or null `method` — gets the
dispatcher's MethodNotFound envelope: code -32601, message
`"Method not found: "` followed by Python's rendering of the method
value, and the request's id echoed (null when absent). -/
theorem C5_unknown_method (st : SublimeState) (now : String) (kvs : List (String × Json))
    (h1 : jget kvs "method" ≠ some (Json.str "initialize"))
    (h2 : jget kvs "method" ≠ some (Json.str "resources/list"))
    (h3 : jget kvs "method" ≠ some (Json.str "resources/read")) :
    handle_mcp_request st now (Json.obj kvs)
      = Except.ok (methodNotFoundResponse (jget kvs "method")
          ((jget kvs "id").getD Json.null)) := by
  have hm1 := isMethodStr_eq_false (jget kvs "method") "initialize" h1
  have hm2 := isMethodStr_eq_false (jget kvs "method") "resources/list" h2
  have hm3 := isMethodStr_eq_false (jget kvs "method") "resources/read" h3
  unfold handle_mcp_request
  simp [hm1, hm2, hm3]

/-- Witness for C5 at the spec's example `{"method":"foo/bar","id":42}`:
the response has id 42, code -32601, and a message naming "foo/bar". -/
theorem C5_unknown_method_witness :
    handle_mcp_request ⟨[]⟩ "T" (Json.obj [("method", Json.str "foo/bar"), ("id", Json.num 42)])
      = Except.ok (Json.obj [("jsonrpc", Json.str "2.0"),
          ("error", Json.obj [("code", Json.num (-32601)),
            ("message", Json.str "Method not found: foo/bar")]),
          ("id", Json.num 42)]) :=
  C5_unknown_method ⟨[]⟩ "T" [("method", Json.str "foo/bar"), ("id", Json.num 42)]
    (by simp [jget]) (by simp [jget]) (by simp [jget])

/-- C9: a POST body that parses as JSON but is not an object makes
`request.get("method")` raise AttributeError inside the dispatcher; the
except block catches it (with `request` bound this time), and the reply
is HTTP 500 carrying a -32603 envelope with id null. -/
theorem C9_non_object_body (st : SublimeState) (now : String) (request : Json)
    (h : isDict request = false) :
    do_POST st now (Except.ok ()) (Except.ok request)
      = Except.ok { status := 500, contentType := some "application/json",
                    body := Json.obj [("jsonrpc", Json.str "2.0"),
                      ("error", Json.obj [("code", Json.num (-32603)),
                        ("message", Json.str ("\x27" ++ pyTypeName request
                          ++ "\x27 object has no attribute \x27get\x27"))]),
                      ("id", Json.null)] } := by
  cases request with
  | obj kvs => simp [isDict] at h
  | null => rfl
  | bool b => rfl
  | num n => rfl
  | str s => rfl
  | arr xs => rfl

/-- Witness for C9 at the body `[]` (a JSON array). -/
theorem C9_non_object_body_witness :
    isDict (Json.arr []) = false
    ∧ do_POST ⟨[]⟩ "T" (Except.ok ()) (Except.ok (Json.arr []))
      = Except.ok { status := 500, contentType := some "application/json",
                    body := Json.obj [("jsonrpc", Json.str "2.0"),
                      ("error", Json.obj [("code", Json.num (-32603)),
                        ("message", Json.str "\x27list\x27 object has no attribute \x27get\x27")]),
                      ("id", Json.null)] } :=
  ⟨rfl, C9_non_object_body ⟨[]⟩ "T" (Json.arr []) rfl⟩

/-- C7 (code bug): `start` sets `allow_reuse_address` only AFTER the
`TCPServer` constructor has already bound the socket (the constructor's
default `bind_and_activate` binds during `__init__`, consulting the class
default False), so address reuse is NOT in effect on the socket at the
time it is bound — `reuseAtBind = false` even though the attribute ends
up true. -/
theorem C7_reuse_not_in_effect_at_bind :
    MCPServer_start (MCPServer_new 8765) BindOutcome.success
      = Except.ok ({ port := 8765,
                     server := some { host := "127.0.0.1", port := 8765,
                                      reuseAtBind := false, allow_reuse_address := true },
                     threadStarted := true, running := true },
          ["EditorContextMCP: Server started on http://127.0.0.1:8765"]) := rfl

/-- C8: `start()` never raises on the caller's thread (the try block's
failure is swallowed by `except Exception`); it is a no-op when already
running; and on a bind failure it only prints the failure line, leaving
the state — in particular `running = false` and the unset `server`
handle — unchanged. -/
theorem C8_start_never_raises (s : MCPServerState) (o : BindOutcome) (m : String) :
    (∃ r, MCPServer_start s o = Except.ok r)
    ∧ (s.running = true → MCPServer_start s o = Except.ok (s, []))
    ∧ (s.running = false → s.server = none →
        MCPServer_start s (BindOutcome.failure m)
          = Except.ok (s, ["EditorContextMCP: Failed to start server: " ++ m])) := by
  refine ⟨?_, ?_, ?_⟩
  · by_cases hr : s.running = true
    · exact ⟨(s, []), by unfold MCPServer_start; rw [if_pos hr]⟩
    · cases o with
      | success => exact ⟨_, by unfold MCPServer_start; rw [if_neg hr]⟩
      | failure m2 => exact ⟨_, by unfold MCPServer_start; rw [if_neg hr]⟩
  · intro hr; unfold MCPServer_start; rw [if_pos hr]
  · intro hr _
    unfold MCPServer_start
    rw [if_neg (by rw [hr]; exact Bool.false_ne_true)]
    rfl

/-- Witness for C8: a fresh server (not running, no handle) whose bind
fails with EADDRINUSE ends unchanged, with only the console line. -/
theorem C8_start_never_raises_witness :
    (MCPServer_new 8765).running = false ∧ (MCPServer_new 8765).server = none
    ∧ MCPServer_start (MCPServer_new 8765)
        (BindOutcome.failure "[Errno 48] Address already in use")
      = Except.ok (MCPServer_new 8765,
          ["EditorContextMCP: Failed to start server: [Errno 48] Address already in use"]) :=
  ⟨rfl, rfl,
   (C8_start_never_raises (MCPServer_new 8765)
     (BindOutcome.failure "[Errno 48] Address already in use")
     "[Errno 48] Address already in use").2.2 rfl rfl⟩

/-- C2: in every snapshot, a path held by at least one view (a real path:
views with a None — or empty, hence falsy — file name are skipped) gets
exactly one entry across `activeFiles` and `otherFiles` together; and a
path held by no view (or the falsy empty path) gets no entry in either
list. -/
theorem C2_dedup_invariant (st : SublimeState) (now : String) (p : String) :
    (p ≠ "" → (∃ w ∈ st.windows, ∃ v ∈ w.views, v.file_name = some p) →
      (filterPath p (get_state_snapshot st now).activeFiles).length
        + (filterPath p (get_state_snapshot st now).otherFiles).length = 1)
    ∧ ((p = "" ∨ ∀ w ∈ st.windows, ∀ v ∈ w.views, v.file_name ≠ some p) →
      filterPath p (get_state_snapshot st now).activeFiles = []
        ∧ filterPath p (get_state_snapshot st now).otherFiles = []) := by
  have hsa : (get_state_snapshot st now).activeFiles
      = (st.windows.reverse.foldl processWindow ⟨[], [], [], []⟩).active_files := rfl
  have hso : (get_state_snapshot st now).otherFiles
      = (st.windows.reverse.foldl processWindow ⟨[], [], [], []⟩).other_files := rfl
  constructor
  · intro hp hex
    have hex2 : ∃ w ∈ st.windows.reverse, ∃ v ∈ w.views, v.file_name = some p := by
      obtain ⟨w, hw, hv⟩ := hex
      exact ⟨w, List.mem_reverse.mpr hw, hv⟩
    obtain ⟨ap, v, hf⟩ := findViewW_isSome_of_exists p st.windows.reverse hex2
    have hmain := windowsFold_found p hp st.windows.reverse ⟨[], [], [], []⟩ ap v hf
      (List.not_mem_nil p)
    rw [hsa, hso, hmain.2.1, hmain.2.2]
    by_cases ha : some p = ap
    · simp [ha, filterPath]
    · simp [ha, filterPath]
  · intro hcase
    rcases hcase with hemp | hnone
    · subst hemp
      have hmain := windowsFold_empty_path st.windows.reverse ⟨[], [], [], []⟩
      rw [hsa, hso, hmain.1, hmain.2]
      exact ⟨rfl, rfl⟩
    · have hf : findViewW p st.windows.reverse = none := by
        apply findViewW_none_of_forall
        intro w hw v hv
        exact hnone w (List.mem_reverse.mp hw) v hv
      have hmain := windowsFold_not_found p st.windows.reverse ⟨[], [], [], []⟩ hf
        (List.not_mem_nil p)
      rw [hsa, hso, hmain.2.1, hmain.2.2]
      exact ⟨rfl, rfl⟩

/-- Witness for C2: a one-window, one-view host holding "/a.txt" yields
exactly one entry for that path across both lists. -/
theorem C2_dedup_invariant_witness :
    (filterPath "/a.txt" (get_state_snapshot
        ⟨[⟨[], none, [⟨some "/a.txt", [], fun _ => (0, 0)⟩]⟩]⟩ "T").activeFiles).length
      + (filterPath "/a.txt" (get_state_snapshot
        ⟨[⟨[], none, [⟨some "/a.txt", [], fun _ => (0, 0)⟩]⟩]⟩ "T").otherFiles).length = 1 :=
  (C2_dedup_invariant ⟨[⟨[], none, [⟨some "/a.txt", [], fun _ => (0, 0)⟩]⟩]⟩ "T" "/a.txt").1
    (by decide)
    ⟨⟨[], none, [⟨some "/a.txt", [], fun _ => (0, 0)⟩]⟩, List.mem_singleton.mpr rfl,
     ⟨some "/a.txt", [], fun _ => (0, 0)⟩, List.mem_singleton.mpr rfl, rfl⟩

/-- C10: when the same path backs several views, the snapshot's single
entry for it is built entirely from the first such view in enumeration
order — frontmost window first (`st.windows.reverse`), native view order
within a window, which is exactly what `findViewW` scans — carrying that
first view's selection; it sits in `activeFiles` iff the active path of
the window containing that first view equals the path, and every later
view with the path contributes nothing (the filtered entries are exactly
the one entry). -/
theorem C10_first_view_wins (st : SublimeState) (now : String) (p : String)
    (ap : Option String) (v : View) (hp : p ≠ "")
    (hf : findViewW p st.windows.reverse = some (ap, v)) :
    (ap = some p →
       filterPath p (get_state_snapshot st now).activeFiles = [mkFileEntry p v]
       ∧ filterPath p (get_state_snapshot st now).otherFiles = [])
    ∧ (ap ≠ some p →
       filterPath p (get_state_snapshot st now).activeFiles = []
       ∧ filterPath p (get_state_snapshot st now).otherFiles = [mkFileEntry p v]) := by
  have hsa : (get_state_snapshot st now).activeFiles
      = (st.windows.reverse.foldl processWindow ⟨[], [], [], []⟩).active_files := rfl
  have hso : (get_state_snapshot st now).otherFiles
      = (st.windows.reverse.foldl processWindow ⟨[], [], [], []⟩).other_files := rfl
  have hmain := windowsFold_found p hp st.windows.reverse ⟨[], [], [], []⟩ ap v hf
    (List.not_mem_nil p)
  constructor
  · intro ha
    have hpa : some p = ap := ha.symm
    rw [hsa, hso, hmain.2.1, hmain.2.2, if_pos hpa, if_pos hpa]
    exact ⟨rfl, rfl⟩
  · intro ha
    have hpa : ¬ some p = ap := fun hc => ha hc.symm
    rw [hsa, hso, hmain.2.1, hmain.2.2, if_neg hpa, if_neg hpa]
    exact ⟨rfl, rfl⟩

/-- Witness for C10: two windows both showing "/dup.txt" with different
selections; the single entry carries the first (frontmost) view's
selection, and lands in `otherFiles` because that window's active view
has no file. -/
theorem C10_first_view_wins_witness :
    findViewW "/dup.txt"
        (SublimeState.windows ⟨[⟨[], some ⟨some "/dup.txt", [⟨1, 1⟩], fun _ => (8, 8)⟩,
             [⟨some "/dup.txt", [⟨1, 1⟩], fun _ => (8, 8)⟩]⟩,
           ⟨[], none, [⟨some "/dup.txt", [⟨0, 0⟩], fun _ => (2, 3)⟩]⟩]⟩).reverse
      = some (none, ⟨some "/dup.txt", [⟨0, 0⟩], fun _ => (2, 3)⟩)
    ∧ filterPath "/dup.txt" (get_state_snapshot
        ⟨[⟨[], some ⟨some "/dup.txt", [⟨1, 1⟩], fun _ => (8, 8)⟩,
             [⟨some "/dup.txt", [⟨1, 1⟩], fun _ => (8, 8)⟩]⟩,
           ⟨[], none, [⟨some "/dup.txt", [⟨0, 0⟩], fun _ => (2, 3)⟩]⟩]⟩ "T").activeFiles = []
    ∧ filterPath "/dup.txt" (get_state_snapshot
        ⟨[⟨[], some ⟨some "/dup.txt", [⟨1, 1⟩], fun _ => (8, 8)⟩,
             [⟨some "/dup.txt", [⟨1, 1⟩], fun _ => (8, 8)⟩]⟩,
           ⟨[], none, [⟨some "/dup.txt", [⟨0, 0⟩], fun _ => (2, 3)⟩]⟩]⟩ "T").otherFiles
      = [mkFileEntry "/dup.txt" ⟨some "/dup.txt", [⟨0, 0⟩], fun _ => (2, 3)⟩] := by
  refine ⟨rfl, ?_⟩
  have h := (C10_first_view_wins
    ⟨[⟨[], some ⟨some "/dup.txt", [⟨1, 1⟩], fun _ => (8, 8)⟩,
         [⟨some "/dup.txt", [⟨1, 1⟩], fun _ => (8, 8)⟩]⟩,
       ⟨[], none, [⟨some "/dup.txt", [⟨0, 0⟩], fun _ => (2, 3)⟩]⟩]⟩ "T" "/dup.txt"
    none ⟨some "/dup.txt", [⟨0, 0⟩], fun _ => (2, 3)⟩ (by decide) rfl).2
    (by exact Option.noConfusion)
  exact ⟨h.1, h.2⟩

/-- When the dispatcher raises, `do_POST` (with the body parsed, so
`request` is bound) answers 500 with the -32603 envelope carrying the
exception's message and the best-effort id. -/
theorem do_POST_handler_error (st : SublimeState) (now : String) (request : Json)
    (e : PyError) (h : handle_mcp_request st now request = Except.error e) :
    do_POST st now (Except.ok ()) (Except.ok request)
      = Except.ok { status := 500, contentType := some "application/json",
                    body := Json.obj [("jsonrpc", Json.str "2.0"),
                      ("error", Json.obj [("code", Json.num (-32603)),
                        ("message", Json.str e.msg)]),
                      ("id", bestEffortId request)] } := by
  have hred : do_POST st now (Except.ok ()) (Except.ok request)
      = (match handle_mcp_request st now request with
         | Except.ok response =>
             Except.ok ⟨200, some "application/json", response⟩
         | Except.error e =>
             Except.ok ⟨500, some "application/json",
               Json.obj [("jsonrpc", Json.str "2.0"),
                 ("error", Json.obj [("code", Json.num (-32603)),
                   ("message", Json.str e.msg)]),
                 ("id", bestEffortId request)]⟩) := rfl
  rw [hred, h]

/-- C4: a `resources/read` request for any URI other than
`sublime-context://state` makes `get_resource_content` raise a ValueError
naming the URI; the dispatcher does not catch it, so the transport layer
turns it into HTTP 500 with a -32603 envelope whose message carries the
URI and whose id is the request's id; the recognized URI instead yields
the snapshot serialized by `json.dumps(..., indent=2)`. -/
theorem C4_unknown_resource_uri (st : SublimeState) (now : String) (uri : String) (idv : Json)
    (h : uri ≠ "sublime-context://state") :
    do_POST st now (Except.ok ())
        (Except.ok (Json.obj [("jsonrpc", Json.str "2.0"),
          ("method", Json.str "resources/read"),
          ("params", Json.obj [("uri", Json.str uri)]),
          ("id", idv)]))
      = Except.ok { status := 500, contentType := some "application/json",
                    body := Json.obj [("jsonrpc", Json.str "2.0"),
                      ("error", Json.obj [("code", Json.num (-32603)),
                        ("message", Json.str ("Unknown resource URI: " ++ uri))]),
                      ("id", idv)] }
    ∧ get_resource_content st now (some (Json.str "sublime-context://state"))
      = Except.ok (dumps2 (snapshotJson (get_state_snapshot st now))) := by
  constructor
  · have hu : isStateUri (some (Json.str uri)) = false := by
      simp [isStateUri, h]
    have hrc : get_resource_content st now (some (Json.str uri))
        = Except.error (PyError.valueError ("Unknown resource URI: " ++ uri)) := by
      unfold get_resource_content
      rw [hu]
      rfl
    have hh : handle_mcp_request st now (Json.obj [("jsonrpc", Json.str "2.0"),
          ("method", Json.str "resources/read"),
          ("params", Json.obj [("uri", Json.str uri)]),
          ("id", idv)])
        = Except.error (PyError.valueError ("Unknown resource URI: " ++ uri)) := by
      show (match get_resource_content st now (some (Json.str uri)) with
            | Except.error e => (Except.error e : Except PyError Json)
            | Except.ok content => Except.ok (readResponse (some (Json.str uri)) content idv))
          = _
      rw [hrc]
    exact do_POST_handler_error st now _ _ hh
  · rfl

/-- Witness for C4 at the URI `sublime-context://other` and id 7. -/
theorem C4_unknown_resource_uri_witness :
    do_POST ⟨[]⟩ "T" (Except.ok ())
        (Except.ok (Json.obj [("jsonrpc", Json.str "2.0"),
          ("method", Json.str "resources/read"),
          ("params", Json.obj [("uri", Json.str "sublime-context://other")]),
          ("id", Json.num 7)]))
      = Except.ok { status := 500, contentType := some "application/json",
                    body := Json.obj [("jsonrpc", Json.str "2.0"),
                      ("error", Json.obj [("code", Json.num (-32603)),
                        ("message", Json.str "Unknown resource URI: sublime-context://other")]),
                      ("id", Json.num 7)] }
    ∧ get_resource_content ⟨[]⟩ "T" (some (Json.str "sublime-context://state"))
      = Except.ok (dumps2 (snapshotJson (get_state_snapshot ⟨[]⟩ "T"))) :=
  ⟨(C4_unknown_resource_uri ⟨[]⟩ "T" "sublime-context://other" (Json.num 7) (by decide)).1,
   (C4_unknown_resource_uri ⟨[]⟩ "T" "sublime-context://other" (Json.num 7) (by decide)).2⟩

/-- C6: with native window order `[W2, W1]` (W1 frontmost, native order
last), the snapshot lists W1's active file before W2's in `activeFiles`,
and merges W1's project folders before W2's into the deduplicated
`projectFolders` (first-occurrence order over `f1 ++ f2`). -/
theorem C6_frontmost_first (f1 f2 : List String) (av1 av2 : View) (p1 p2 now : String)
    (h1 : av1.file_name = some p1) (h2 : av2.file_name = some p2)
    (hne1 : p1 ≠ "") (hne2 : p2 ≠ "") (hd : p1 ≠ p2) :
    (get_state_snapshot ⟨[⟨f2, some av2, [av2]⟩, ⟨f1, some av1, [av1]⟩]⟩ now).activeFiles
      = [mkFileEntry p1 av1, mkFileEntry p2 av2]
    ∧ (get_state_snapshot ⟨[⟨f2, some av2, [av2]⟩, ⟨f1, some av1, [av1]⟩]⟩ now).otherFiles = []
    ∧ (get_state_snapshot ⟨[⟨f2, some av2, [av2]⟩, ⟨f1, some av1, [av1]⟩]⟩ now).projectFolders
      = addFolders [] (f1 ++ f2) := by
  have hap1 : (Option.some av1).bind View.file_name = some p1 := h1
  have hap2 : (Option.some av2).bind View.file_name = some p2 := h2
  have e1 : processWindow ⟨[], [], [], []⟩ ⟨f1, some av1, [av1]⟩
      = ⟨[mkFileEntry p1 av1], [], addFolders [] f1, [p1]⟩ := by
    show List.foldl (processView ((Option.some av1).bind View.file_name))
        ⟨[], [], addFolders [] f1, []⟩ [av1] = _
    rw [hap1, List.foldl_cons, List.foldl_nil,
      processView_file_new_active (some p1) ⟨[], [], addFolders [] f1, []⟩ av1 p1 h1 hne1
        (List.not_mem_nil p1) rfl]
    rfl
  have hnot : p2 ∉ [p1] := by
    intro hc
    exact hd ((List.mem_singleton.mp hc).symm)
  have e2 : processWindow ⟨[mkFileEntry p1 av1], [], addFolders [] f1, [p1]⟩
        ⟨f2, some av2, [av2]⟩
      = ⟨[mkFileEntry p1 av1, mkFileEntry p2 av2], [],
         addFolders (addFolders [] f1) f2, [p2, p1]⟩ := by
    show List.foldl (processView ((Option.some av2).bind View.file_name))
        ⟨[mkFileEntry p1 av1], [], addFolders (addFolders [] f1) f2, [p1]⟩ [av2] = _
    rw [hap2, List.foldl_cons, List.foldl_nil,
      processView_file_new_active (some p2)
        ⟨[mkFileEntry p1 av1], [], addFolders (addFolders [] f1) f2, [p1]⟩ av2 p2 h2 hne2
        hnot rfl]
    rfl
  refine ⟨?_, ?_, ?_⟩
  · show (processWindow (processWindow ⟨[], [], [], []⟩ ⟨f1, some av1, [av1]⟩)
        ⟨f2, some av2, [av2]⟩).active_files = _
    rw [e1, e2]
  · show (processWindow (processWindow ⟨[], [], [], []⟩ ⟨f1, some av1, [av1]⟩)
        ⟨f2, some av2, [av2]⟩).other_files = _
    rw [e1, e2]
  · show (processWindow (processWindow ⟨[], [], [], []⟩ ⟨f1, some av1, [av1]⟩)
        ⟨f2, some av2, [av2]⟩).project_folders = _
    rw [e1, e2]
    exact (addFolders_append [] f1 f2).symm

/-- Witness for C6: W1 (frontmost) shows "/a" with folder "/w1"; W2 shows
"/b" with folders "/w1", "/w2"; the snapshot lists "/a" before "/b" and
folders "/w1" then "/w2". -/
theorem C6_frontmost_first_witness :
    (get_state_snapshot ⟨[⟨["/w1", "/w2"], some ⟨some "/b", [], fun _ => (0, 0)⟩,
          [⟨some "/b", [], fun _ => (0, 0)⟩]⟩,
        ⟨["/w1"], some ⟨some "/a", [], fun _ => (0, 0)⟩,
          [⟨some "/a", [], fun _ => (0, 0)⟩]⟩]⟩ "T").activeFiles
      = [mkFileEntry "/a" ⟨some "/a", [], fun _ => (0, 0)⟩,
         mkFileEntry "/b" ⟨some "/b", [], fun _ => (0, 0)⟩]
    ∧ (get_state_snapshot ⟨[⟨["/w1", "/w2"], some ⟨some "/b", [], fun _ => (0, 0)⟩,
          [⟨some "/b", [], fun _ => (0, 0)⟩]⟩,
        ⟨["/w1"], some ⟨some "/a", [], fun _ => (0, 0)⟩,
          [⟨some "/a", [], fun _ => (0, 0)⟩]⟩]⟩ "T").otherFiles = []
    ∧ (get_state_snapshot ⟨[⟨["/w1", "/w2"], some ⟨some "/b", [], fun _ => (0, 0)⟩,
          [⟨some "/b", [], fun _ => (0, 0)⟩]⟩,
        ⟨["/w1"], some ⟨some "/a", [], fun _ => (0, 0)⟩,
          [⟨some "/a", [], fun _ => (0, 0)⟩]⟩]⟩ "T").projectFolders = ["/w1", "/w2"] := by
  have h := C6_frontmost_first ["/w1"] ["/w1", "/w2"]
    ⟨some "/a", [], fun _ => (0, 0)⟩ ⟨some "/b", [], fun _ => (0, 0)⟩
    "/a" "/b" "T" rfl rfl (by decide) (by decide) (by decide)
  exact ⟨h.1, h.2.1, h.2.2.trans rfl⟩
